import Mathlib

/-!
Verification of the mount-gated hydration guard and lazy client-state
initializer of the login page (`src/app/auth/login/page.tsx`) and the
hydration-safe API client (`ApiClient.initializeToken`, shown in
`HYDRATION_FIXES_COMPLETE.md`).

The TypeScript code is shallowly embedded: component state becomes a
structure, event handlers become pure state-transformers that also report
their side effects (remote calls, navigations), and the JavaScript
truthiness conventions (`null`, `undefined`, the empty string) are made
explicit with `Option String` plus an emptiness check.
-/

set_option autoImplicit false

namespace Hydration

/-! ### Lazy client-state initializer (`ApiClient`) -/

/-- Behaviour of `localStorage.getItem("auth_token")`: it either returns a
string, returns null (`ok none`), or throws. -/
inductive StorageRead where
  | ok : Option String → StorageRead
  | err : StorageRead
deriving DecidableEq, Repr

/-- The client environment as seen by `initializeToken`: whether
`window`/`localStorage` exist (`storagePresent`), and what a read of the
`auth_token` key would do. -/
structure Env where
  storagePresent : Bool
  read : StorageRead
deriving DecidableEq, Repr

/-- Performing `localStorage.getItem("auth_token")`: throws (`Except.error`)
or returns a string-or-null. -/
def Env.getItem (env : Env) : Except Unit (Option String) :=
  match env.read with
  | .ok t => .ok t
  | .err => .error ()

/-- Mutable instance fields of the `ApiClient` class: `this.token` and
`this.isInitialized`. -/
structure ApiClient where
  token : Option String
  isInitialized : Bool
deriving DecidableEq, Repr

/-- The `ApiClient` constructor: sets only `baseURL` and never touches
`localStorage`, so `token` starts null and `isInitialized` starts false. -/
def ApiClient.init : ApiClient := { token := none, isInitialized := false }

/-- Embedding of `ApiClient.initializeToken` from
`HYDRATION_FIXES_COMPLETE.md`, lines 52-65: return immediately when already
initialized; otherwise, when the storage capability exists, try a single
read, falling back to null on a thrown failure; finally mark initialized.
The second component counts underlying storage reads attempted by this
call. -/
def ApiClient.initializeToken (env : Env) (c : ApiClient) : ApiClient × Nat :=
  if c.isInitialized then (c, 0)
  else
    let c1 :=
      if env.storagePresent then
        match env.getItem with
        | .ok t => { c with token := t }
        | .error _ => { c with token := none }
      else c
    ({ c1 with isInitialized := true }, if env.storagePresent then 1 else 0)

/-- Modelled from the spec: `getToken()` of the API client is not under
`src/`; spec section 4.2 states it calls `ensureInitialized()` and then
returns ClientToken, never throwing. The total return type (no `Except`)
reflects that every storage failure is caught inside `initializeToken`. -/
def ApiClient.getToken (env : Env) (c : ApiClient) : Option String × ApiClient :=
  let p := c.initializeToken env
  (p.1.token, p.1)

/-- N sequential calls of `initializeToken` against a fixed environment,
accumulating the total number of underlying storage reads. -/
def ApiClient.initializeTokenN (env : Env) : Nat → ApiClient → ApiClient × Nat
  | 0, c => (c, 0)
  | n + 1, c =>
    let p := c.initializeToken env
    let q := ApiClient.initializeTokenN env n p.1
    (q.1, p.2 + q.2)

/-! ### Login page component (`LoginPage`) -/

/-- The two form fields wired to `handleInputChange` via `e.target.name`. -/
inductive Field where
  | email
  | password
deriving DecidableEq, Repr

/-- The `formData` state: `{ email: "", password: "" }` initially. -/
structure FormData where
  email : String
  password : String
deriving DecidableEq, Repr

/-- React state of one `LoginPage` instance plus the module-level
`apiClient` slot (`apiClientLoaded` is `apiClient !== null`). -/
structure PageState where
  mounted : Bool
  apiClientLoaded : Bool
  formData : FormData
  loading : Bool
  error : Option String
deriving DecidableEq, Repr

/-- Initial hook values: `mounted = false`, empty form, `loading = false`,
`error = null`, and the module-level `apiClient` slot still null. -/
def PageState.init : PageState :=
  { mounted := false
    apiClientLoaded := false
    formData := { email := "", password := "" }
    loading := false
    error := none }

/-- The two views `LoginPage` can return: the pulse skeleton shown before
mounting, and the interactive form. -/
inductive View where
  | placeholder
  | interactive
deriving DecidableEq, Repr

/-- The render logic of `LoginPage` (lines 73-92): `if (!mounted)` return
the loading skeleton, otherwise the full form. -/
def render (s : PageState) : View :=
  if s.mounted then .interactive else .placeholder

/-- The `useEffect` body (lines 24-30): the dynamic import of
`@/lib/apiClient` resolves, the continuation stores the module in the
`apiClient` slot and then calls `setMounted(true)`. -/
def onAttach (s : PageState) : PageState :=
  { s with apiClientLoaded := true, mounted := true }

/-- JavaScript truthiness of a string-or-null value: null, undefined and
the empty string are falsy. -/
def truthy : Option String → Bool
  | some m => !m.isEmpty
  | none => false

/-- The error box is rendered only when `error` is truthy
(`\x7berror && (...)\x7d` in the JSX). -/
def errorDisplayed (s : PageState) : Bool :=
  truthy s.error

/-- Embedding of `handleInputChange` (lines 32-40): spread the previous
`formData`, overwrite the field named by the event, and clear the error
only when one is currently set (`if (error) setError(null)`). -/
def handleInputChange (f : Field) (v : String) (s : PageState) : PageState :=
  let fd :=
    match f with
    | .email => { s.formData with email := v }
    | .password => { s.formData with password := v }
  { s with
    formData := fd
    error := if truthy s.error then none else s.error }

/-- Behaviour of the awaited `apiClient.login(...)` promise: it resolves
with `\x7bsuccess, message?\x7d` or rejects with an error whose `message`
field may be missing. -/
inductive LoginResult where
  | resolved : Bool → Option String → LoginResult
  | rejected : Option String → LoginResult
deriving DecidableEq, Repr

/-- JavaScript `m || fallback` on a possibly-missing string: the fallback
is used when `m` is undefined, null, or the empty string. -/
def jsOr (m : Option String) (fallback : String) : String :=
  match m with
  | some v => if v.isEmpty then fallback else v
  | none => fallback

/-- Navigation side effects; the login page only ever calls
`router.replace`, which swaps the current history entry instead of pushing
a new one. -/
inductive NavEffect where
  | replace : String → NavEffect
  | push : String → NavEffect
deriving DecidableEq, Repr

/-- Result of one run of `handleLogin`: the component state afterwards,
whether `apiClient.login` was invoked, and the navigations triggered. -/
structure LoginOutcome where
  state : PageState
  remoteCalled : Bool
  navigations : List NavEffect
deriving DecidableEq, Repr

/-- The guard of `handleLogin`: `!mounted || !apiClient`. -/
def notReady (s : PageState) : Bool :=
  !s.mounted || !s.apiClientLoaded

/-- Embedding of `handleLogin` (lines 42-70), with the awaited remote call
resolved by the `r` parameter. The not-ready branch sets the inline
"still loading" error and returns before any remote work; otherwise
`loading` is raised, the error cleared, the remote call made, and the
`finally` block lowers `loading` again on every path. -/
def handleLogin (r : LoginResult) (s : PageState) : LoginOutcome :=
  if notReady s then
    { state := { s with error := some "Application is still loading. Please try again." }
      remoteCalled := false
      navigations := [] }
  else
    let s1 := { s with loading := true, error := none }
    match r with
    | .resolved true _ =>
      { state := { s1 with loading := false }
        remoteCalled := true
        navigations := [.replace "/dashboard"] }
    | .resolved false msg =>
      { state := { s1 with
          loading := false
          error := some (jsOr msg "Login failed. Please check your credentials.") }
        remoteCalled := true
        navigations := [] }
    | .rejected msg =>
      { state := { s1 with
          loading := false
          error := some (jsOr msg "Network error. Please try again.") }
        remoteCalled := true
        navigations := [] }

/-- The spec's illustrative submission states (section 4.3). -/
inductive SubmitState where
  | idle
  | submitting
  | success
  | failed
deriving DecidableEq, Repr

/-- Classify a completed `handleLogin` run in the spec's state machine:
a triggered navigation is Success, a completed remote call without one is
Failed, and a run that never left `loading = false` without calling the
remote endpoint stayed Idle. -/
def phase (o : LoginOutcome) : SubmitState :=
  if o.state.loading then .submitting
  else if !o.navigations.isEmpty then .success
  else if o.remoteCalled then .failed
  else .idle

/-! ### Event-trace model of one component instance -/

/-- Events a single component instance processes: the attach effect firing
(the dynamic import resolving), a user input change, and a form submission
whose remote call behaves as given. -/
inductive Event where
  | attach
  | input : Field → String → Event
  | submit : LoginResult → Event
deriving DecidableEq, Repr

/-- One step of the component: dispatch an event to its handler. -/
def step (s : PageState) : Event → PageState
  | .attach => onAttach s
  | .input f v => handleInputChange f v s
  | .submit r => (handleLogin r s).state

/-- Run a component instance from a state through a list of events. -/
def run (s : PageState) (evs : List Event) : PageState :=
  evs.foldl step s

/-- State of a fresh instance after n attach events. -/
def afterAttaches (n : Nat) : PageState :=
  run PageState.init (List.replicate n .attach)

/-- Number of false-to-true transitions of the mount flag over the first n
attach events. -/
def mountTransitions : Nat → Nat
  | 0 => 0
  | n + 1 =>
    mountTransitions n +
      (if !(afterAttaches n).mounted && (afterAttaches (n + 1)).mounted then 1 else 0)

end Hydration

namespace Hydration

/-! ### Helper lemmas -/

theorem initializeToken_sets_flag (env : Env) (c : ApiClient) :
    (c.initializeToken env).1.isInitialized = true := by
  unfold ApiClient.initializeToken
  split
  · assumption
  · rfl

theorem initializeToken_noop_of_initialized (env : Env) (c : ApiClient)
    (h : c.isInitialized = true) : c.initializeToken env = (c, 0) := by
  unfold ApiClient.initializeToken
  simp [h]

theorem initializeToken_reads_le_one (env : Env) (c : ApiClient) :
    (c.initializeToken env).2 ≤ 1 := by
  unfold ApiClient.initializeToken
  split
  · exact Nat.zero_le 1
  · simp only []
    split <;> simp

theorem initializeTokenN_zero_of_initialized (env : Env) (n : Nat) (c : ApiClient)
    (h : c.isInitialized = true) : ApiClient.initializeTokenN env n c = (c, 0) := by
  induction n with
  | zero => rfl
  | succ k ih =>
    unfold ApiClient.initializeTokenN
    rw [initializeToken_noop_of_initialized env c h]
    simpa using ih

theorem onAttach_idem (s : PageState) : onAttach (onAttach s) = onAttach s := rfl

theorem run_attach_replicate (n : Nat) (s : PageState) :
    run s (List.replicate (n + 1) Event.attach) = onAttach s := by
  induction n generalizing s with
  | zero => rfl
  | succ k ih =>
    rw [List.replicate_succ]
    show run (onAttach s) (List.replicate (k + 1) Event.attach) = onAttach s
    rw [ih (onAttach s), onAttach_idem]

theorem handleLogin_preserves_mount (r : LoginResult) (s : PageState) :
    (handleLogin r s).state.mounted = s.mounted ∧
    (handleLogin r s).state.apiClientLoaded = s.apiClientLoaded := by
  unfold handleLogin
  split
  · exact ⟨rfl, rfl⟩
  · cases r with
    | resolved b m => cases b <;> exact ⟨rfl, rfl⟩
    | rejected m => exact ⟨rfl, rfl⟩

theorem step_preserves_mount_inv (s : PageState) (e : Event)
    (h : s.mounted = true → s.apiClientLoaded = true) :
    (step s e).mounted = true → (step s e).apiClientLoaded = true := by
  cases e with
  | attach => intro _; rfl
  | input f v => exact h
  | submit r =>
    show (handleLogin r s).state.mounted = true → (handleLogin r s).state.apiClientLoaded = true
    intro hm
    rw [(handleLogin_preserves_mount r s).2]
    exact h ((handleLogin_preserves_mount r s).1 ▸ hm)

theorem run_mount_inv (evs : List Event) (s : PageState)
    (h : s.mounted = true → s.apiClientLoaded = true) :
    (run s evs).mounted = true → (run s evs).apiClientLoaded = true := by
  induction evs generalizing s with
  | nil => exact h
  | cons e rest ih =>
    show (run (step s e) rest).mounted = true → (run (step s e) rest).apiClientLoaded = true
    exact ih (step s e) (step_preserves_mount_inv s e h)

/-! ### Claim theorems -/

/-- C1: while the mount flag is false, `render()` returns the static
placeholder view and never the interactive view; once the mount flag is
true, `render()` returns the full interactive view. -/
theorem c1_render_gated_by_mount (s : PageState) :
    (s.mounted = false → render s = View.placeholder) ∧
    (s.mounted = true → render s = View.interactive) := by
  constructor <;> intro h <;> simp [render, h]

/-- C1 witness: a fresh instance renders the placeholder; after the attach
effect it renders the interactive view. -/
theorem c1_render_gated_by_mount_witness :
    render PageState.init = View.placeholder ∧
    render (onAttach PageState.init) = View.interactive :=
  ⟨(c1_render_gated_by_mount PageState.init).1 rfl,
   (c1_render_gated_by_mount (onAttach PageState.init)).2 rfl⟩

/-- C2: `ensureInitialized` (the code's `initializeToken`) is idempotent:
N sequential calls, N ≥ 1, perform at most one underlying storage read,
and when the initialized flag is already true a call returns at once with
no state change and no read. -/
theorem c2_initializeToken_idempotent (env : Env) (c : ApiClient) (n : Nat)
    (hn : 1 ≤ n) :
    (ApiClient.initializeTokenN env n c).2 ≤ 1 ∧
    (c.isInitialized = true →
      c.initializeToken env = (c, 0) ∧
      ApiClient.initializeTokenN env n c = (c, 0)) := by
  constructor
  · cases n with
    | zero => exact absurd hn (by simp)
    | succ k =>
      show (let p := c.initializeToken env
            let q := ApiClient.initializeTokenN env k p.1
            ((q.1, p.2 + q.2) : ApiClient × Nat)).2 ≤ 1
      have hflag := initializeToken_sets_flag env c
      have hzero := initializeTokenN_zero_of_initialized env k
        (c.initializeToken env).1 hflag
      simp only [hzero]
      simpa using initializeToken_reads_le_one env c
  · intro h
    exact ⟨initializeToken_noop_of_initialized env c h,
      initializeTokenN_zero_of_initialized env n c h⟩

/-- C2 witness: three sequential calls on a fresh client perform at most
one read, and a call on an already-initialized client is a no-op. -/
theorem c2_initializeToken_idempotent_witness :
    (ApiClient.initializeTokenN { storagePresent := true, read := .ok (some "tok") }
        3 ApiClient.init).2 ≤ 1 ∧
    ApiClient.initializeToken { storagePresent := true, read := .ok (some "tok") }
        { token := none, isInitialized := true }
      = ({ token := none, isInitialized := true }, 0) :=
  ⟨(c2_initializeToken_idempotent { storagePresent := true, read := .ok (some "tok") }
      ApiClient.init 3 (by decide)).1,
   ((c2_initializeToken_idempotent { storagePresent := true, read := .ok (some "tok") }
      { token := none, isInitialized := true } 3 (by decide)).2 rfl).1⟩

/-- C3: when the storage capability is absent at the first run, the token
ends as the absent value with the initialized flag true and no read
performed; the state is terminal (any later call against any environment
is a no-op); and `getToken()` returns the absent value without failing. -/
theorem c3_storage_absent_terminal (env env2 : Env)
    (h : env.storagePresent = false) :
    ApiClient.init.initializeToken env
      = ({ token := none, isInitialized := true }, 0) ∧
    ApiClient.initializeToken env2 { token := none, isInitialized := true }
      = ({ token := none, isInitialized := true }, 0) ∧
    (ApiClient.init.getToken env).1 = none := by
  have h1 : ApiClient.init.initializeToken env
      = ({ token := none, isInitialized := true }, 0) := by
    unfold ApiClient.initializeToken ApiClient.init
    simp [h]
  refine ⟨h1, initializeToken_noop_of_initialized env2 _ rfl, ?_⟩
  unfold ApiClient.getToken
  rw [h1]

/-- C3 witness: server-side environment (no storage), then a later
environment where storage exists. -/
theorem c3_storage_absent_terminal_witness :
    ApiClient.init.initializeToken { storagePresent := false, read := .ok none }
      = ({ token := none, isInitialized := true }, 0) ∧
    (ApiClient.init.getToken { storagePresent := false, read := .ok none }).1
      = none :=
  ⟨(c3_storage_absent_terminal { storagePresent := false, read := .ok none }
      { storagePresent := true, read := .ok (some "tok") } rfl).1,
   (c3_storage_absent_terminal { storagePresent := false, read := .ok none }
      { storagePresent := true, read := .ok (some "tok") } rfl).2.2⟩

/-- C4: for every storage behaviour `getToken()` stays total and marks the
client initialized; in particular when the read throws, the failure is
swallowed inside `initializeToken`, the token is set to the absent value,
the flag is still raised, and `getToken()` returns the absent value. -/
theorem c4_getToken_swallows_read_failure (env : Env) (h : env.read = .err) :
    ApiClient.init.getToken env
      = (none, { token := none, isInitialized := true }) ∧
    (∀ e2 : Env, (ApiClient.init.getToken e2).2.isInitialized = true) := by
  constructor
  · unfold ApiClient.getToken ApiClient.initializeToken ApiClient.init Env.getItem
    cases hp : env.storagePresent <;> simp [h, hp]
  · intro e2
    unfold ApiClient.getToken
    exact initializeToken_sets_flag e2 ApiClient.init

/-- C4 witness: storage exists but `getItem` throws. -/
theorem c4_getToken_swallows_read_failure_witness :
    ApiClient.init.getToken { storagePresent := true, read := .err }
      = (none, { token := none, isInitialized := true }) :=
  (c4_getToken_swallows_read_failure { storagePresent := true, read := .err }
    rfl).1

/-- C5: a submission while the mount flag is false or the helper module is
not loaded sets the inline error to the still-loading message, performs no
remote call, triggers no navigation, leaves the form untouched, and when
the machine was Idle it stays Idle. -/
theorem c5_submit_not_ready (s : PageState) (r : LoginResult)
    (h : notReady s = true) :
    handleLogin r s =
      { state := { s with error := some "Application is still loading. Please try again." }
        remoteCalled := false
        navigations := [] } ∧
    (s.loading = false → phase (handleLogin r s) = SubmitState.idle) := by
  have he : handleLogin r s =
      { state := { s with error := some "Application is still loading. Please try again." }
        remoteCalled := false
        navigations := [] } := by
    unfold handleLogin
    simp [h]
  refine ⟨he, fun hl => ?_⟩
  rw [he]
  simp [phase, hl]

/-- C5 witness: submitting on a fresh, unmounted instance. -/
theorem c5_submit_not_ready_witness :
    handleLogin (LoginResult.resolved true none) PageState.init =
      { state := { PageState.init with
          error := some "Application is still loading. Please try again." }
        remoteCalled := false
        navigations := [] } ∧
    phase (handleLogin (LoginResult.resolved true none) PageState.init)
      = SubmitState.idle :=
  ⟨(c5_submit_not_ready PageState.init (LoginResult.resolved true none) rfl).1,
   (c5_submit_not_ready PageState.init (LoginResult.resolved true none) rfl).2 rfl⟩

/-- C6: when the guard passes and the remote call resolves successfully,
the submission reaches Success and exactly one navigation is triggered: a
replace to the dashboard route, which leaves no history entry behind. -/
theorem c6_submit_success_navigates (s : PageState) (m : Option String)
    (h : notReady s = false) :
    (handleLogin (LoginResult.resolved true m) s).navigations
      = [NavEffect.replace "/dashboard"] ∧
    (handleLogin (LoginResult.resolved true m) s).remoteCalled = true ∧
    (handleLogin (LoginResult.resolved true m) s).state
      = { s with loading := false, error := none } ∧
    phase (handleLogin (LoginResult.resolved true m) s) = SubmitState.success := by
  have he : handleLogin (LoginResult.resolved true m) s =
      { state := { s with loading := false, error := none }
        remoteCalled := true
        navigations := [NavEffect.replace "/dashboard"] } := by
    unfold handleLogin
    simp [h]
  rw [he]
  exact ⟨rfl, rfl, rfl, rfl⟩

/-- C6 witness: the spec scenario, submitting a@b.com / password1 on a
mounted instance whose remote call succeeds. -/
theorem c6_submit_success_navigates_witness :
    (handleLogin (LoginResult.resolved true none)
        (run PageState.init
          [Event.attach, Event.input Field.email "a@b.com",
            Event.input Field.password "password1"])).navigations
      = [NavEffect.replace "/dashboard"] ∧
    phase (handleLogin (LoginResult.resolved true none)
        (run PageState.init
          [Event.attach, Event.input Field.email "a@b.com",
            Event.input Field.password "password1"])) = SubmitState.success :=
  ⟨(c6_submit_success_navigates
      (run PageState.init
        [Event.attach, Event.input Field.email "a@b.com",
          Event.input Field.password "password1"]) none rfl).1,
   (c6_submit_success_navigates
      (run PageState.init
        [Event.attach, Event.input Field.email "a@b.com",
          Event.input Field.password "password1"]) none rfl).2.2.2⟩

/-- C7 counterexample: a ready instance whose remote call resolves
with success false and the message present but empty gets the generic
fallback as its inline error, not the provided message, because the code
uses a JavaScript or-else that treats the empty string as missing. -/
theorem c7_empty_message_counterexample :
    (handleLogin (LoginResult.resolved false (some ""))
        (onAttach PageState.init)).state.error
      = some "Login failed. Please check your credentials." ∧
    some "" ≠ some "Login failed. Please check your credentials." :=
  ⟨rfl, by decide⟩

/-- C7 amended: when the guard passes, a resolved failure carrying a
non-empty message surfaces exactly that message and lands in Failed; a
resolved failure with a missing or empty message surfaces the login
fallback string; a rejection with a missing or empty message surfaces the
single generic network fallback string and lands in Failed. -/
theorem c7_submit_failure_messages (s : PageState) (m : String)
    (h : notReady s = false) (hm : m.isEmpty = false) :
    ((handleLogin (LoginResult.resolved false (some m)) s).state.error = some m ∧
      phase (handleLogin (LoginResult.resolved false (some m)) s)
        = SubmitState.failed) ∧
    (handleLogin (LoginResult.resolved false none) s).state.error
      = some "Login failed. Please check your credentials." ∧
    ((handleLogin (LoginResult.rejected none) s).state.error
        = some "Network error. Please try again." ∧
      phase (handleLogin (LoginResult.rejected none) s) = SubmitState.failed) := by
  have hr : ∀ msg : Option String,
      handleLogin (LoginResult.resolved false msg) s =
        { state :=
            { s with
              loading := false
              error := some (jsOr msg "Login failed. Please check your credentials.") }
          remoteCalled := true
          navigations := [] } := by
    intro msg
    unfold handleLogin
    simp [h]
  have hj : handleLogin (LoginResult.rejected none) s =
      { state :=
          { s with
            loading := false
            error := some (jsOr none "Network error. Please try again.") }
        remoteCalled := true
        navigations := [] } := by
    unfold handleLogin
    simp [h]
  refine ⟨⟨?_, ?_⟩, ?_, ?_, ?_⟩
  · rw [hr (some m)]
    simp [jsOr, hm]
  · rw [hr (some m)]
    simp [phase]
  · rw [hr none]
    rfl
  · rw [hj]
    rfl
  · rw [hj]
    simp [phase]

/-- C7 witness: the spec scenario with message Invalid credentials, plus
the fallback cases, on a freshly attached instance. -/
theorem c7_submit_failure_messages_witness :
    (handleLogin (LoginResult.resolved false (some "Invalid credentials"))
        (onAttach PageState.init)).state.error = some "Invalid credentials" ∧
    (handleLogin (LoginResult.rejected none)
        (onAttach PageState.init)).state.error
      = some "Network error. Please try again." :=
  ⟨((c7_submit_failure_messages (onAttach PageState.init) "Invalid credentials"
      rfl rfl).1).1,
   ((c7_submit_failure_messages (onAttach PageState.init) "Invalid credentials"
      rfl rfl).2).2.1⟩

theorem afterAttaches_succ (n : Nat) :
    afterAttaches (n + 1) = onAttach PageState.init :=
  run_attach_replicate n PageState.init

theorem mountTransitions_succ_one (n : Nat) : mountTransitions (n + 1) = 1 := by
  induction n with
  | zero => rfl
  | succ k ih =>
    unfold mountTransitions
    rw [afterAttaches_succ k]
    simpa using ih

/-- C8: the mount flag starts false, after any positive number of attach
events it is true having undergone exactly one false-to-true transition,
and no event of the component ever resets a true flag to false. -/
theorem c8_mounted_one_shot :
    PageState.init.mounted = false ∧
    (∀ n : Nat, 1 ≤ n →
      (afterAttaches n).mounted = true ∧ mountTransitions n = 1) ∧
    (∀ (s : PageState) (e : Event), s.mounted = true → (step s e).mounted = true) := by
  refine ⟨rfl, fun n hn => ?_, fun s e hm => ?_⟩
  · cases n with
    | zero => exact absurd hn (by simp)
    | succ k => exact ⟨by rw [afterAttaches_succ k]; rfl, mountTransitions_succ_one k⟩
  · cases e with
    | attach => rfl
    | input f v => exact hm
    | submit r =>
      show (handleLogin r s).state.mounted = true
      rw [(handleLogin_preserves_mount r s).1]
      exact hm

/-- C8 witness: two attach events leave the flag true with exactly one
transition, and a further attach on a mounted state keeps it true. -/
theorem c8_mounted_one_shot_witness :
    (afterAttaches 2).mounted = true ∧
    mountTransitions 2 = 1 ∧
    (step (onAttach PageState.init) Event.attach).mounted = true :=
  ⟨(c8_mounted_one_shot.2.1 2 (by decide)).1,
   (c8_mounted_one_shot.2.1 2 (by decide)).2,
   c8_mounted_one_shot.2.2 (onAttach PageState.init) Event.attach rfl⟩

/-- C9: in every state reachable by a fresh component instance, a true
mount flag implies the helper module slot is loaded, because the effect
continuation stores the module before calling setMounted; hence the
not-ready guard is false there and every submission reaches the remote
call. -/
theorem c9_mounted_implies_loaded (evs : List Event) (r : LoginResult)
    (h : (run PageState.init evs).mounted = true) :
    (run PageState.init evs).apiClientLoaded = true ∧
    notReady (run PageState.init evs) = false ∧
    (handleLogin r (run PageState.init evs)).remoteCalled = true := by
  have hl : (run PageState.init evs).apiClientLoaded = true :=
    run_mount_inv evs PageState.init (fun hm => absurd hm (by decide)) h
  have hn : notReady (run PageState.init evs) = false := by
    simp [notReady, h, hl]
  refine ⟨hl, hn, ?_⟩
  unfold handleLogin
  rw [hn]
  cases r with
  | resolved b m => cases b <;> rfl
  | rejected m => rfl

/-- C9 witness: after one attach event the module is loaded and a
submission reaches the remote call. -/
theorem c9_mounted_implies_loaded_witness :
    (run PageState.init [Event.attach]).apiClientLoaded = true ∧
    (handleLogin (LoginResult.rejected none)
        (run PageState.init [Event.attach])).remoteCalled = true :=
  ⟨(c9_mounted_implies_loaded [Event.attach] (LoginResult.rejected none) rfl).1,
   (c9_mounted_implies_loaded [Event.attach] (LoginResult.rejected none) rfl).2.2⟩

/-- C10: an input change writes the named field, leaves the other field
and the mount, loading and module-slot state untouched, and clears the
inline error exactly when one is currently displayed. -/
theorem c10_input_change_frame (f : Field) (v : String) (s : PageState) :
    (f = Field.email →
      (handleInputChange f v s).formData.email = v ∧
      (handleInputChange f v s).formData.password = s.formData.password) ∧
    (f = Field.password →
      (handleInputChange f v s).formData.password = v ∧
      (handleInputChange f v s).formData.email = s.formData.email) ∧
    (errorDisplayed s = true → (handleInputChange f v s).error = none) ∧
    (handleInputChange f v s).mounted = s.mounted ∧
    (handleInputChange f v s).apiClientLoaded = s.apiClientLoaded ∧
    (handleInputChange f v s).loading = s.loading := by
  refine ⟨?_, ?_, ?_, rfl, rfl, rfl⟩
  · intro hf
    subst hf
    exact ⟨rfl, rfl⟩
  · intro hf
    subst hf
    exact ⟨rfl, rfl⟩
  · intro hd
    unfold handleInputChange
    unfold errorDisplayed at hd
    simp [hd]

/-- C10 witness: typing into the email field while an error is displayed
updates only that field and clears the error. -/
theorem c10_input_change_frame_witness :
    (handleInputChange Field.email "a@b.com"
        { mounted := true
          apiClientLoaded := true
          formData := { email := "", password := "pw" }
          loading := false
          error := some "Invalid credentials" }).formData.email = "a@b.com" ∧
    (handleInputChange Field.email "a@b.com"
        { mounted := true
          apiClientLoaded := true
          formData := { email := "", password := "pw" }
          loading := false
          error := some "Invalid credentials" }).formData.password = "pw" ∧
    (handleInputChange Field.email "a@b.com"
        { mounted := true
          apiClientLoaded := true
          formData := { email := "", password := "pw" }
          loading := false
          error := some "Invalid credentials" }).error = none :=
  ⟨((c10_input_change_frame Field.email "a@b.com"
      { mounted := true
        apiClientLoaded := true
        formData := { email := "", password := "pw" }
        loading := false
        error := some "Invalid credentials" }).1 rfl).1,
   ((c10_input_change_frame Field.email "a@b.com"
      { mounted := true
        apiClientLoaded := true
        formData := { email := "", password := "pw" }
        loading := false
        error := some "Invalid credentials" }).1 rfl).2,
   (c10_input_change_frame Field.email "a@b.com"
      { mounted := true
        apiClientLoaded := true
        formData := { email := "", password := "pw" }
        loading := false
        error := some "Invalid credentials" }).2.2.1 (by decide)⟩

end Hydration
